import Mathlib

/-!
Verification development for the `tabbable-combobox` repository: three React
combobox implementations (tree-walker focus context, selector-query focus hook,
and aria-activedescendant virtual focus) sharing one option-filtering and
highlight-index state machine.  The definitions below are shallow embeddings of
the TypeScript sources in `src/`; theorems check the natural-language
specification against them.
-/

namespace TabbableCombobox

/-- An option record, from `src/types/combobox.ts` (`ComboboxOption`). -/
structure ComboboxOption where
  id : String
  label : String
  value : String
  deriving DecidableEq, Repr

/-- Boolean test that `p` is a leading segment of `l` (helper used to model
the JavaScript `String.prototype.includes`). -/
def prefixB : List Char → List Char → Bool
  | [], _ => true
  | _ :: _, [] => false
  | a :: as, b :: bs => a == b && prefixB as bs

/-- Boolean test that `p` occurs contiguously inside `l` (helper used to model
the JavaScript `String.prototype.includes`). -/
def containsSub (p : List Char) : List Char → Bool
  | [] => prefixB p []
  | c :: rest => prefixB p (c :: rest) || containsSub p rest

/-- Model of the JavaScript call `s.includes(pat)` on strings, at the level of
character lists. -/
def jsIncludes (s pat : String) : Bool :=
  containsSub pat.data s.data

/-- Model of the JavaScript call `s.toLowerCase()`: character-wise lowering
(the same definition as core `String.toLower`, written over the character list
so that it evaluates by kernel reduction). -/
def strToLower (s : String) : String :=
  ⟨s.data.map Char.toLower⟩

/-- The filtered option list of both `Combobox1.tsx` (lines 83-85) and
`Combobox3.tsx` (lines 94-96):
`options.filter(o => o.label.toLowerCase().includes(inputValue.toLowerCase()))`. -/
def filteredOptions (options : List ComboboxOption) (inputValue : String) :
    List ComboboxOption :=
  options.filter (fun option =>
    jsIncludes (strToLower option.label) (strToLower inputValue))

/-- Spec-level predicate, written from the spec's words, not from the code:
the input text occurs in the option's label as a contiguous substring, compared
case-insensitively. -/
def SpecContains (input label : String) : Prop :=
  ∃ pre post, pre ++ (strToLower input).data ++ post = (strToLower label).data

theorem prefixB_iff : ∀ (p l : List Char), prefixB p l = true ↔ ∃ t, p ++ t = l
  | [], l => by simp [prefixB]
  | _ :: _, [] => by simp [prefixB]
  | a :: as, b :: bs => by
    simp only [prefixB, Bool.and_eq_true, beq_iff_eq]
    constructor
    · rintro ⟨rfl, h⟩
      obtain ⟨t, rfl⟩ := (prefixB_iff as bs).mp h
      exact ⟨t, rfl⟩
    · rintro ⟨t, h⟩
      injection h with h1 h2
      exact ⟨h1, (prefixB_iff as bs).mpr ⟨t, h2⟩⟩

theorem containsSub_iff :
    ∀ (p l : List Char), containsSub p l = true ↔ ∃ s t, s ++ p ++ t = l
  | p, [] => by
    simp only [containsSub, prefixB_iff]
    constructor
    · rintro ⟨t, h⟩
      exact ⟨[], t, h⟩
    · rintro ⟨s, t, h⟩
      rcases List.append_eq_nil.mp h with ⟨h1, h2⟩
      rcases List.append_eq_nil.mp h1 with ⟨rfl, rfl⟩
      exact ⟨t, h2⟩
  | p, c :: rest => by
    simp only [containsSub, Bool.or_eq_true, prefixB_iff, containsSub_iff p rest]
    constructor
    · rintro (⟨t, h⟩ | ⟨s, t, h⟩)
      · exact ⟨[], t, h⟩
      · exact ⟨c :: s, t, by simp [← h]⟩
    · rintro ⟨s, t, h⟩
      cases s with
      | nil => exact Or.inl ⟨t, by simpa using h⟩
      | cons a s' =>
        injection h with h1 h2
        exact Or.inr ⟨s', t, h2⟩

instance (input label : String) : Decidable (SpecContains input label) :=
  decidable_of_iff
    (containsSub (strToLower input).data (strToLower label).data = true)
    (by rw [containsSub_iff]; exact Iff.rfl)

theorem jsIncludes_eq_decide (label input : String) :
    jsIncludes (strToLower label) (strToLower input)
      = decide (SpecContains input label) := by
  by_cases h : SpecContains input label
  · rw [decide_eq_true h]
    exact (containsSub_iff _ _).mpr h
  · rw [decide_eq_false h]
    cases hc : jsIncludes (strToLower label) (strToLower input)
    · rfl
    · exact absurd ((containsSub_iff _ _).mp hc) h

/-- Transient UI state of one combobox instance: the three `useState` hooks of
`Combobox1.tsx` (lines 71-73) and `Combobox3.tsx` (lines 87-89).  The
highlighted index is an `Int` because the JavaScript arithmetic can reach `-1`
(ArrowUp wrap when the filtered list is empty computes `length - 1 = -1`). -/
structure ComboboxState where
  isOpen : Bool
  inputValue : String
  highlightedIndex : Int
  deriving DecidableEq, Repr

/- Key-name constants from `src/utils/keyboard.ts` (`KEYS`). -/
namespace KEYS

def ARROW_UP : String := "ArrowUp"

def ARROW_DOWN : String := "ArrowDown"

def ENTER : String := "Enter"

def ESCAPE : String := "Escape"

def TAB : String := "Tab"

def SPACE : String := " "

end KEYS

/-- Model of `shouldPreventDefault` from `src/utils/keyboard.ts`: true for the four
keys in its `preventKeys` list. -/
def shouldPreventDefault (key : String) : Bool :=
  key == KEYS.ARROW_UP || key == KEYS.ARROW_DOWN || key == KEYS.ENTER
    || key == KEYS.ESCAPE

/-- Model of `isNavigationKey` from `src/utils/keyboard.ts`: membership in `KEYS`. -/
def isNavigationKey (key : String) : Bool :=
  [KEYS.ARROW_UP, KEYS.ARROW_DOWN, KEYS.ENTER, KEYS.ESCAPE, KEYS.TAB,
    KEYS.SPACE].contains key

/-- A callback invocation requested by a handler (`onInputChange?.(value)` or
`onSelectionChange?.(option)` in the component sources). -/
inductive CallbackCall where
  | inputChange (value : String)
  | selectionChange (option : ComboboxOption)
  deriving DecidableEq, Repr

/-- A DOM element, reduced to the features the repository's focus code reads:
tag name, the attributes tested by `TABBABLE_SELECTOR` and `isTabbable`
(`src/utils/focus.ts`), whether it is an `HTMLElement` (tested by
`Combobox1`'s Tab branch), an identity, and the identity of its closest
enclosing form (`element.closest("form")`), if any. -/
structure Elem where
  eid : Nat
  tag : String
  disabledAttr : Bool
  tabindexAttr : Option String
  hrefAttr : Bool
  contenteditableTrue : Bool
  isHTMLElement : Bool
  formId : Option Nat
  deriving DecidableEq, Repr

/-- Result of running one event handler: the successor widget state, the
callback invocations it requested, whether it called `preventDefault`, and the
element it called `.focus()` on, if any. -/
structure HandlerResult where
  state : ComboboxState
  calls : List CallbackCall
  preventedDefault : Bool
  focused : Option Elem
  deriving DecidableEq, Repr

/-- JavaScript array indexing `l[i]` with a possibly negative index: `none`
(i.e. `undefined`) when out of range. -/
def jsIndex {α : Type} (l : List α) (i : Int) : Option α :=
  if 0 ≤ i then l[i.toNat]? else none

/-- Model of `handleInputChange` of `Combobox3.tsx` (lines 104-112): guarded by
`disabled`; sets the input value; when the toggling flag is not set, opens the
popup and resets the highlight; requests `onInputChange(value)`. -/
def combobox3HandleInputChange (disabled isToggling : Bool) (value : String)
    (s : ComboboxState) : HandlerResult :=
  if disabled then ⟨s, [], false, none⟩
  else
    let s1 := { s with inputValue := value }
    let s2 := if isToggling then s1
      else { s1 with isOpen := true, highlightedIndex := 0 }
    ⟨s2, [CallbackCall.inputChange value], false, none⟩

/-- Model of `handleOptionSelect` of `Combobox3.tsx` (lines 114-119): sets the input
value to the option's label, closes the popup, resets the highlight, and
requests `onSelectionChange(option)`. -/
def combobox3HandleOptionSelect (option : ComboboxOption) (_s : ComboboxState) :
    HandlerResult :=
  ⟨⟨false, option.label, 0⟩, [CallbackCall.selectionChange option], false, none⟩

/-- Model of `handleKeyDown` of `Combobox3.tsx` (lines 121-164).  Transcribed branch by
branch: the disabled guard, the `shouldPreventDefault` call, and the five-way
switch on `e.key`.  The Tab branch only closes the popup; it never prevents
default and never focuses an element. -/
def combobox3HandleKeyDown (disabled : Bool) (key : String)
    (options : List ComboboxOption) (s : ComboboxState) : HandlerResult :=
  if disabled then ⟨s, [], false, none⟩
  else
    let pd := shouldPreventDefault key
    let fo := filteredOptions options s.inputValue
    if key == KEYS.ARROW_DOWN then
      if !s.isOpen then ⟨{ s with isOpen := true }, [], pd, none⟩
      else
        ⟨{ s with highlightedIndex :=
            if s.highlightedIndex < (fo.length : Int) - 1
            then s.highlightedIndex + 1 else 0 }, [], pd, none⟩
    else if key == KEYS.ARROW_UP then
      if s.isOpen then
        ⟨{ s with highlightedIndex :=
            if s.highlightedIndex > 0
            then s.highlightedIndex - 1 else (fo.length : Int) - 1 }, [], pd, none⟩
      else ⟨s, [], pd, none⟩
    else if key == KEYS.ENTER then
      if s.isOpen then
        match jsIndex fo s.highlightedIndex with
        | some option =>
          let r := combobox3HandleOptionSelect option s
          ⟨r.state, r.calls, pd, none⟩
        | none => ⟨s, [], pd, none⟩
      else ⟨s, [], pd, none⟩
    else if key == KEYS.ESCAPE then
      ⟨{ s with isOpen := false, highlightedIndex := 0 }, [], pd, none⟩
    else if key == KEYS.TAB then
      if s.isOpen then
        ⟨{ s with isOpen := false, highlightedIndex := 0 }, [], pd, none⟩
      else ⟨s, [], pd, none⟩
    else ⟨s, [], pd, none⟩

/-- Model of `handleToggle` of `Combobox3.tsx` (lines 166-183): guarded by `disabled`;
flips the open flag and resets the highlight in either direction. -/
def combobox3HandleToggle (disabled : Bool) (s : ComboboxState) : HandlerResult :=
  if disabled then ⟨s, [], false, none⟩
  else ⟨{ s with isOpen := !s.isOpen, highlightedIndex := 0 }, [], false, none⟩

/-- Model of `handleInputChange` of `Combobox1.tsx` (lines 87-95); textually identical
to the Approach 3 handler. -/
def combobox1HandleInputChange (disabled isToggling : Bool) (value : String)
    (s : ComboboxState) : HandlerResult :=
  if disabled then ⟨s, [], false, none⟩
  else
    let s1 := { s with inputValue := value }
    let s2 := if isToggling then s1
      else { s1 with isOpen := true, highlightedIndex := 0 }
    ⟨s2, [CallbackCall.inputChange value], false, none⟩

/-- Model of `handleOptionSelect` of `Combobox1.tsx` (lines 97-102); textually identical
to the Approach 3 handler. -/
def combobox1HandleOptionSelect (option : ComboboxOption) (_s : ComboboxState) :
    HandlerResult :=
  ⟨⟨false, option.label, 0⟩, [CallbackCall.selectionChange option], false, none⟩

/-- Model of `handleToggle` of `Combobox1.tsx` (lines 161-175); textually identical to
the Approach 3 handler. -/
def combobox1HandleToggle (disabled : Bool) (s : ComboboxState) : HandlerResult :=
  if disabled then ⟨s, [], false, none⟩
  else ⟨{ s with isOpen := !s.isOpen, highlightedIndex := 0 }, [], false, none⟩

/-- Model of `handleKeyDown` of `Combobox1.tsx` (lines 104-159).  Identical to the
Approach 3 handler except in the Tab branch, which consults the tree-walker
context: here `currentElement` stands for `inputRef.current` and
`nextFocusable` / `prevFocusable` for the values of
`getNextFocusable(currentElement)` / `getPreviousFocusable(currentElement)`.
When the chosen element exists and is an `HTMLElement`, the branch calls
`preventDefault` and focuses it. -/
def combobox1HandleKeyDown (disabled : Bool) (currentElement : Option Elem)
    (nextFocusable prevFocusable : Option Elem) (shiftKey : Bool) (key : String)
    (options : List ComboboxOption) (s : ComboboxState) : HandlerResult :=
  if disabled then ⟨s, [], false, none⟩
  else
    let pd := shouldPreventDefault key
    let fo := filteredOptions options s.inputValue
    if key == KEYS.ARROW_DOWN then
      if !s.isOpen then ⟨{ s with isOpen := true }, [], pd, none⟩
      else
        ⟨{ s with highlightedIndex :=
            if s.highlightedIndex < (fo.length : Int) - 1
            then s.highlightedIndex + 1 else 0 }, [], pd, none⟩
    else if key == KEYS.ARROW_UP then
      if s.isOpen then
        ⟨{ s with highlightedIndex :=
            if s.highlightedIndex > 0
            then s.highlightedIndex - 1 else (fo.length : Int) - 1 }, [], pd, none⟩
      else ⟨s, [], pd, none⟩
    else if key == KEYS.ENTER then
      if s.isOpen then
        match jsIndex fo s.highlightedIndex with
        | some option =>
          let r := combobox1HandleOptionSelect option s
          ⟨r.state, r.calls, pd, none⟩
        | none => ⟨s, [], pd, none⟩
      else ⟨s, [], pd, none⟩
    else if key == KEYS.ESCAPE then
      ⟨{ s with isOpen := false, highlightedIndex := 0 }, [], pd, none⟩
    else if key == KEYS.TAB then
      let s1 := if s.isOpen then { s with isOpen := false, highlightedIndex := 0 }
        else s
      match currentElement with
      | some _ =>
        let nextElement := if shiftKey then prevFocusable else nextFocusable
        match nextElement with
        | some el =>
          if el.isHTMLElement then ⟨s1, [], true, some el⟩
          else ⟨s1, [], pd, none⟩
        | none => ⟨s1, [], pd, none⟩
      | none => ⟨s1, [], pd, none⟩
    else ⟨s, [], pd, none⟩

/-- Model of `activeDescendantId` of `Combobox3.tsx` (lines 100-102):
`filteredOptions.length > 0 && highlightedIndex >= 0 &&
filteredOptions[highlightedIndex] ? option-(id) : undefined`. -/
def activeDescendantId (options : List ComboboxOption) (s : ComboboxState) :
    Option String :=
  let fo := filteredOptions options s.inputValue
  if 0 < fo.length ∧ 0 ≤ s.highlightedIndex then
    (jsIndex fo s.highlightedIndex).map (fun option => "option-" ++ option.id)
  else none

/-- The `aria-activedescendant` attribute rendered by `Combobox3.tsx`
(line 214): `isOpen && activeDescendantId ? activeDescendantId : undefined`
(the id string is never empty, so JavaScript truthiness is `isSome`). -/
def ariaActiveDescendant (options : List ComboboxOption) (s : ComboboxState) :
    Option String :=
  if s.isOpen then activeDescendantId options s else none

/-- The flat DOM model: the descendants of `document.body` in document order.
Descendants of a form element are exactly the elements whose `formId` is that
form's identity. -/
structure Dom where
  bodyElems : List Elem
  deriving Repr

/-- One disjunct of `TABBABLE_SELECTOR` from `src/utils/focus.ts`: a CSS match
of the comma-joined selector list (`button:not([disabled])`,
`input:not([disabled])`, `select:not([disabled])`, `textarea:not([disabled])`,
`a[href]`, `[tabindex]:not([tabindex="-1"])`, `[contenteditable="true"]`). -/
def matchesTabbableSelector (e : Elem) : Bool :=
  (e.tag == "button" && !e.disabledAttr)
    || (e.tag == "input" && !e.disabledAttr)
    || (e.tag == "select" && !e.disabledAttr)
    || (e.tag == "textarea" && !e.disabledAttr)
    || (e.tag == "a" && e.hrefAttr)
    || (e.tabindexAttr.isSome && e.tabindexAttr != some "-1")
    || e.contenteditableTrue

/-- Model of `isTabbable` from `src/utils/focus.ts`: rejects a present `disabled`
attribute, rejects `tabindex="-1"`, then requires a `TABBABLE_SELECTOR`
match. -/
def isTabbable (e : Elem) : Bool :=
  if e.disabledAttr then false
  else if e.tabindexAttr == some "-1" then false
  else matchesTabbableSelector e

/-- Model of `container.querySelectorAll(TABBABLE_SELECTOR)` on the flat model: the
document-order descendants matching the selector. -/
def querySelectorAllTabbable (container : List Elem) : List Elem :=
  container.filter matchesTabbableSelector

/-- Model of `getTabbableElements` from `src/utils/focus.ts`:
`Array.from(container.querySelectorAll(TABBABLE_SELECTOR)).filter(isTabbable)`. -/
def getTabbableElements (container : List Elem) : List Elem :=
  (querySelectorAllTabbable container).filter isTabbable

/-- Model of `getClosestForm` from `src/utils/focus.ts`: `element.closest("form")`,
modelled by the element's `formId`. -/
def getClosestForm (e : Elem) : Option Nat :=
  e.formId

/-- The scope used by both focus utilities: the descendants of the closest
enclosing form when there is one (`const root = form || document.body`),
otherwise all of `document.body`. -/
def formScopeElems (dom : Dom) (current : Elem) : List Elem :=
  match getClosestForm current with
  | some f => dom.bodyElems.filter (fun x => x.formId == some f)
  | none => dom.bodyElems

/-- Model of `getAllTabbables` of `useFocusManagement.ts` (Approach 2), without the
per-form memo cache (over a fixed DOM the cache returns what a recomputation
would): the tabbable elements of the form scope. -/
def getAllTabbables (dom : Dom) (current : Elem) : List Elem :=
  getTabbableElements (formScopeElems dom current)

/-- Model of `getNextTabbable` of `useFocusManagement.ts` (lines 32-41): find the
current element in the scope's tabbable list (`findIndex`, identity equality);
`null` when absent; otherwise the element at the next index, or `null` at the
end (no wrap across the form boundary). -/
def getNextTabbable (dom : Dom) (current : Elem) : Option Elem :=
  let tabbables := getAllTabbables dom current
  match tabbables.findIdx? (fun el => el == current) with
  | none => none
  | some i => tabbables[i + 1]?

/-- Model of `getPreviousTabbable` of `useFocusManagement.ts` (lines 43-52): symmetric;
`null` when the current element is absent or first. -/
def getPreviousTabbable (dom : Dom) (current : Elem) : Option Elem :=
  let tabbables := getAllTabbables dom current
  match tabbables.findIdx? (fun el => el == current) with
  | none => none
  | some i => if i = 0 then none else tabbables[i - 1]?

/-- Model of `getNextFocusable` of `FocusableContext.tsx` (lines 44-58): a tree walker
filtered by `isTabbable` is positioned on the current element and stepped
forward; on the flat model `walker.nextNode()` is the first tabbable element
strictly after the current position in document order.  When there is none the
code wraps to the first tabbable element of the scope; when the current element
is not under the root the walk likewise starts from the root. -/
def getNextFocusable (dom : Dom) (current : Elem) : Option Elem :=
  let elems := formScopeElems dom current
  match elems.findIdx? (fun el => el == current) with
  | some i =>
    match (elems.drop (i + 1)).find? isTabbable with
    | some e => some e
    | none => elems.find? isTabbable
  | none => elems.find? isTabbable

/-- The last accepted node of a walk from the root (`FocusableContext.tsx`
lines 72-80): the last tabbable element in document order. -/
def lastTabbable (elems : List Elem) : Option Elem :=
  (elems.filter isTabbable).getLast?

/-- Model of `getPreviousFocusable` of `FocusableContext.tsx` (lines 60-81):
`walker.previousNode()` is the nearest tabbable element strictly before the
current position; when there is none the code walks the whole scope and
returns the last tabbable element. -/
def getPreviousFocusable (dom : Dom) (current : Elem) : Option Elem :=
  let elems := formScopeElems dom current
  match elems.findIdx? (fun el => el == current) with
  | some i =>
    match (elems.take i).reverse.find? isTabbable with
    | some e => some e
    | none => lastTabbable elems
  | none => lastTabbable elems

/-- Model of `useFocusable` from `useFocusable.ts`: throws
(`Except.error`) when the context is absent, returns it otherwise. -/
def useFocusable {α : Type} (context : Option α) : Except String α :=
  match context with
  | some c => Except.ok c
  | none => Except.error "useFocusable must be used within a FocusableProvider"

/-- Model of `ComboboxProps` from `src/types/combobox.ts`: the full external prop
interface, optional fields as `Option`, in source order. -/
structure ComboboxProps where
  options : List ComboboxOption
  value : Option String
  placeholder : Option String
  onSelectionChange : Option (Option ComboboxOption → Unit)
  onInputChange : Option (String → Unit)
  className : Option String
  disabled : Option Bool

/-- C1: For every options list and every input text, the list of options shown
in the popup is exactly the filter of the input list by case-insensitive
substring match of the input text in the option label, kept in original order
(it is a sublist of the input list). -/
theorem c1_filter_is_case_insensitive_substring
    (options : List ComboboxOption) (input : String) :
    filteredOptions options input
        = options.filter (fun o => decide (SpecContains input o.label))
      ∧ (filteredOptions options input).Sublist options := by
  refine ⟨?_, List.filter_sublist _⟩
  exact List.filter_congr (fun x _ => jsIncludes_eq_decide x.label input)

/-- C2: Approach 1 and Approach 3 differ only in the Tab branch: for every
widget state, every non-Tab key, and every input-change and option-select
event, the two components' handlers produce identical successor states,
callback invocations, preventDefault decisions and focus moves. -/
theorem c2_approaches_agree_off_tab (disabled : Bool)
    (currentElement nextFocusable prevFocusable : Option Elem) (shiftKey : Bool)
    (key : String) (options : List ComboboxOption) (s : ComboboxState)
    (isToggling : Bool) (value : String) (option : ComboboxOption) :
    (key ≠ KEYS.TAB →
      combobox1HandleKeyDown disabled currentElement nextFocusable prevFocusable
          shiftKey key options s
        = combobox3HandleKeyDown disabled key options s)
    ∧ combobox1HandleInputChange disabled isToggling value s
        = combobox3HandleInputChange disabled isToggling value s
    ∧ combobox1HandleOptionSelect option s = combobox3HandleOptionSelect option s := by
  refine ⟨?_, rfl, rfl⟩
  intro h
  have hk : (key == KEYS.TAB) = false := by
    simpa using h
  simp only [combobox1HandleKeyDown, combobox3HandleKeyDown,
    combobox1HandleOptionSelect, combobox3HandleOptionSelect, hk,
    Bool.false_eq_true, if_false]

/-- Witness for C2 at concrete inputs: the Enter key on a one-option widget. -/
theorem c2_approaches_agree_off_tab_witness :
    combobox1HandleKeyDown false none none none false KEYS.ENTER
        [⟨"1", "Apple", "apple"⟩] ⟨true, "", 0⟩
      = combobox3HandleKeyDown false KEYS.ENTER
          [⟨"1", "Apple", "apple"⟩] ⟨true, "", 0⟩ :=
  (c2_approaches_agree_off_tab false none none none false KEYS.ENTER
    [⟨"1", "Apple", "apple"⟩] ⟨true, "", 0⟩ false "" ⟨"1", "Apple", "apple"⟩).1
    (by decide)

/-- C6: For every state of the enabled combobox (both approaches), Escape
closes the popup and resets the highlighted index to 0, leaves the input value
unchanged, and requests no callback and no focus move. -/
theorem c6_escape_closes_popup (options : List ComboboxOption) (s : ComboboxState)
    (currentElement nextFocusable prevFocusable : Option Elem) (shiftKey : Bool) :
    combobox3HandleKeyDown false KEYS.ESCAPE options s
        = ⟨⟨false, s.inputValue, 0⟩, [], true, none⟩
    ∧ combobox1HandleKeyDown false currentElement nextFocusable prevFocusable
          shiftKey KEYS.ESCAPE options s
        = ⟨⟨false, s.inputValue, 0⟩, [], true, none⟩ :=
  ⟨rfl, rfl⟩

/-- C7: When the disabled flag is set, every keyboard, input-change, and
click-toggle event of either approach leaves the state unchanged and requests
no callback, no preventDefault, and no focus move. -/
theorem c7_disabled_is_noop (options : List ComboboxOption) (s : ComboboxState)
    (key value : String) (isToggling : Bool)
    (currentElement nextFocusable prevFocusable : Option Elem) (shiftKey : Bool) :
    combobox3HandleKeyDown true key options s = ⟨s, [], false, none⟩
    ∧ combobox3HandleInputChange true isToggling value s = ⟨s, [], false, none⟩
    ∧ combobox3HandleToggle true s = ⟨s, [], false, none⟩
    ∧ combobox1HandleKeyDown true currentElement nextFocusable prevFocusable
          shiftKey key options s = ⟨s, [], false, none⟩
    ∧ combobox1HandleInputChange true isToggling value s = ⟨s, [], false, none⟩
    ∧ combobox1HandleToggle true s = ⟨s, [], false, none⟩ :=
  ⟨rfl, rfl, rfl, rfl, rfl, rfl⟩

theorem combobox3_never_focuses (disabled : Bool) (key : String)
    (options : List ComboboxOption) (s : ComboboxState) :
    (combobox3HandleKeyDown disabled key options s).focused = none := by
  unfold combobox3HandleKeyDown
  dsimp only
  repeat' split
  all_goals rfl

theorem combobox3_tab_no_preventDefault (disabled : Bool)
    (options : List ComboboxOption) (s : ComboboxState) :
    (combobox3HandleKeyDown disabled KEYS.TAB options s).preventedDefault = false := by
  unfold combobox3HandleKeyDown
  cases disabled
  · cases s.isOpen <;> rfl
  · rfl

/-- C4: In Approach 3 the keyboard handler never focuses another element and
its Tab branch never calls preventDefault; while the popup is open with the
highlighted index on an existing filtered option, the rendered
`aria-activedescendant` is `option-` followed by that option's id; when the
popup is closed or the filtered list is empty, the attribute is absent. -/
theorem c4_virtual_focus_active_descendant (disabled : Bool) (key : String)
    (options : List ComboboxOption) (s : ComboboxState) :
    (combobox3HandleKeyDown disabled key options s).focused = none
    ∧ (combobox3HandleKeyDown disabled KEYS.TAB options s).preventedDefault = false
    ∧ (s.isOpen = true → 0 ≤ s.highlightedIndex →
        ∀ o : ComboboxOption,
          (filteredOptions options s.inputValue)[s.highlightedIndex.toNat]? = some o →
          ariaActiveDescendant options s = some ("option-" ++ o.id))
    ∧ ((s.isOpen = false ∨ filteredOptions options s.inputValue = []) →
        ariaActiveDescendant options s = none) := by
  refine ⟨combobox3_never_focuses disabled key options s,
    combobox3_tab_no_preventDefault disabled options s, ?_, ?_⟩
  · intro hopen hge o hsome
    have hlen : 0 < (filteredOptions options s.inputValue).length := by
      by_contra hlen
      have : (filteredOptions options s.inputValue) = [] := by
        cases hfo : filteredOptions options s.inputValue with
        | nil => rfl
        | cons a l => exact absurd (by simp [hfo]) hlen
      rw [this] at hsome
      simp at hsome
    unfold ariaActiveDescendant activeDescendantId jsIndex
    rw [hopen, if_pos rfl, if_pos ⟨hlen, hge⟩, if_pos hge, hsome]
    rfl
  · intro hclosed
    unfold ariaActiveDescendant activeDescendantId
    rcases hclosed with hclosed | hempty
    · rw [hclosed]
      rfl
    · rw [hempty]
      cases s.isOpen <;> simp

theorem combobox3_enter_eq (options : List ComboboxOption) (s : ComboboxState) :
    combobox3HandleKeyDown false KEYS.ENTER options s
      = if s.isOpen then
          match jsIndex (filteredOptions options s.inputValue) s.highlightedIndex with
          | some option =>
            ⟨⟨false, option.label, 0⟩, [CallbackCall.selectionChange option],
              true, none⟩
          | none => ⟨s, [], true, none⟩
        else ⟨s, [], true, none⟩ :=
  rfl

/-- C10: Enter selects exactly when the popup is open and an option exists at
the highlighted index; then the input value becomes that option's label, the
popup closes, the highlight resets to 0, and `onSelectionChange` is requested
with that option; when the popup is closed, or the index is negative or past
the end of the filtered list, the state is unchanged and no callback fires. -/
theorem c10_enter_select_guard (options : List ComboboxOption) (s : ComboboxState) :
    (∀ o : ComboboxOption, s.isOpen = true → 0 ≤ s.highlightedIndex →
        (filteredOptions options s.inputValue)[s.highlightedIndex.toNat]? = some o →
        combobox3HandleKeyDown false KEYS.ENTER options s
          = ⟨⟨false, o.label, 0⟩, [CallbackCall.selectionChange o], true, none⟩)
    ∧ (s.isOpen = false →
        combobox3HandleKeyDown false KEYS.ENTER options s = ⟨s, [], true, none⟩)
    ∧ ((s.highlightedIndex < 0
          ∨ (filteredOptions options s.inputValue)[s.highlightedIndex.toNat]? = none) →
        combobox3HandleKeyDown false KEYS.ENTER options s = ⟨s, [], true, none⟩) := by
  refine ⟨?_, ?_, ?_⟩
  · intro o hopen hge hsome
    have hj : jsIndex (filteredOptions options s.inputValue) s.highlightedIndex
        = some o := by
      unfold jsIndex
      rw [if_pos hge, hsome]
    rw [combobox3_enter_eq, hopen, if_pos rfl, hj]
  · intro hclosed
    rw [combobox3_enter_eq, hclosed]
    rfl
  · intro h
    have hj : jsIndex (filteredOptions options s.inputValue) s.highlightedIndex
        = none := by
      unfold jsIndex
      rcases h with hneg | hnone
      · rw [if_neg (by omega)]
      · split
        · exact hnone
        · rfl
    rw [combobox3_enter_eq]
    cases hopen : s.isOpen
    · rfl
    · rw [if_pos rfl, hj]

/-- Witness for C10 at concrete inputs: a one-option widget, open with the
option highlighted, then closed. -/
theorem c10_enter_select_guard_witness :
    combobox3HandleKeyDown false KEYS.ENTER [⟨"1", "Apple", "apple"⟩] ⟨true, "", 0⟩
      = ⟨⟨false, "Apple", 0⟩,
          [CallbackCall.selectionChange ⟨"1", "Apple", "apple"⟩], true, none⟩
    ∧ combobox3HandleKeyDown false KEYS.ENTER [⟨"1", "Apple", "apple"⟩]
          ⟨false, "", 0⟩
        = ⟨⟨false, "", 0⟩, [], true, none⟩ :=
  ⟨(c10_enter_select_guard [⟨"1", "Apple", "apple"⟩] ⟨true, "", 0⟩).1
      ⟨"1", "Apple", "apple"⟩ rfl (by decide) (by decide),
    (c10_enter_select_guard [⟨"1", "Apple", "apple"⟩] ⟨false, "", 0⟩).2.1 rfl⟩

/-- Witness for C4 at concrete inputs: a one-option widget, open with the
option highlighted, then closed. -/
theorem c4_virtual_focus_active_descendant_witness :
    ariaActiveDescendant [⟨"1", "Apple", "apple"⟩] ⟨true, "", 0⟩
        = some ("option-" ++ "1")
    ∧ ariaActiveDescendant [⟨"1", "Apple", "apple"⟩] ⟨false, "", 0⟩ = none :=
  ⟨(c4_virtual_focus_active_descendant false KEYS.TAB [⟨"1", "Apple", "apple"⟩]
        ⟨true, "", 0⟩).2.2.1 rfl (by decide) ⟨"1", "Apple", "apple"⟩ (by decide),
    (c4_virtual_focus_active_descendant false KEYS.TAB [⟨"1", "Apple", "apple"⟩]
        ⟨false, "", 0⟩).2.2.2 (Or.inl rfl)⟩

/-- One ArrowDown (`true`) or ArrowUp (`false`) key. -/
def arrowKey : Bool → String
  | true => KEYS.ARROW_DOWN
  | false => KEYS.ARROW_UP

/-- Fold a sequence of arrow-key events through the Approach 3 keyboard
handler. -/
def runArrows (options : List ComboboxOption) (s : ComboboxState)
    (seq : List Bool) : ComboboxState :=
  seq.foldl
    (fun st b => (combobox3HandleKeyDown false (arrowKey b) options st).state) s

theorem combobox3_arrowDown_state (options : List ComboboxOption)
    (s : ComboboxState) (h : s.isOpen = true) :
    (combobox3HandleKeyDown false KEYS.ARROW_DOWN options s).state
      = ⟨true, s.inputValue,
          if s.highlightedIndex
              < ((filteredOptions options s.inputValue).length : Int) - 1
          then s.highlightedIndex + 1 else 0⟩ := by
  unfold combobox3HandleKeyDown
  rw [h]
  rfl

theorem combobox3_arrowUp_state (options : List ComboboxOption)
    (s : ComboboxState) (h : s.isOpen = true) :
    (combobox3HandleKeyDown false KEYS.ARROW_UP options s).state
      = ⟨true, s.inputValue,
          if s.highlightedIndex > 0 then s.highlightedIndex - 1
          else ((filteredOptions options s.inputValue).length : Int) - 1⟩ := by
  unfold combobox3HandleKeyDown
  rw [h]
  rfl

theorem arrows_preserve_invariant (options : List ComboboxOption) (input : String)
    (hn : 0 < (filteredOptions options input).length) :
    ∀ (seq : List Bool) (s : ComboboxState), s.isOpen = true →
      s.inputValue = input → 0 ≤ s.highlightedIndex →
      s.highlightedIndex < ((filteredOptions options input).length : Int) →
      (runArrows options s seq).isOpen = true
      ∧ (runArrows options s seq).inputValue = input
      ∧ 0 ≤ (runArrows options s seq).highlightedIndex
      ∧ (runArrows options s seq).highlightedIndex
          < ((filteredOptions options input).length : Int) := by
  intro seq
  induction seq with
  | nil =>
    intro s h1 h2 h3 h4
    exact ⟨h1, h2, h3, h4⟩
  | cons b rest ih =>
    intro s h1 h2 h3 h4
    have hrw : runArrows options s (b :: rest)
        = runArrows options
            ((combobox3HandleKeyDown false (arrowKey b) options s).state) rest := rfl
    rw [hrw]
    cases b
    · rw [show arrowKey false = KEYS.ARROW_UP from rfl,
        combobox3_arrowUp_state options s h1]
      subst h2
      apply ih
      · rfl
      · rfl
      · dsimp only
        split <;> omega
      · dsimp only
        split <;> omega
    · rw [show arrowKey true = KEYS.ARROW_DOWN from rfl,
        combobox3_arrowDown_state options s h1]
      subst h2
      apply ih
      · rfl
      · rfl
      · dsimp only
        split <;> omega
      · dsimp only
        split <;> omega

/-- C9: While the popup is open over a non-empty filtered list of length `n`,
any sequence of ArrowDown and ArrowUp events starting from highlighted index 0
keeps the index in `[0, n-1]` (and leaves the popup open and the input text
unchanged); one ArrowDown increments the index, wrapping from `n-1` to `0`, and
one ArrowUp decrements it, wrapping from `0` to `n-1`. -/
theorem c9_arrow_wraparound (options : List ComboboxOption) (input : String)
    (seq : List Bool) (hn : 0 < (filteredOptions options input).length) :
    (0 ≤ (runArrows options ⟨true, input, 0⟩ seq).highlightedIndex
      ∧ (runArrows options ⟨true, input, 0⟩ seq).highlightedIndex
          < ((filteredOptions options input).length : Int)
      ∧ (runArrows options ⟨true, input, 0⟩ seq).isOpen = true
      ∧ (runArrows options ⟨true, input, 0⟩ seq).inputValue = input)
    ∧ (∀ s : ComboboxState, s.isOpen = true → s.inputValue = input →
        0 ≤ s.highlightedIndex →
        s.highlightedIndex < ((filteredOptions options input).length : Int) →
        ((combobox3HandleKeyDown false KEYS.ARROW_DOWN options s).state.highlightedIndex
            = if s.highlightedIndex
                  = ((filteredOptions options input).length : Int) - 1
              then 0 else s.highlightedIndex + 1)
        ∧ ((combobox3HandleKeyDown false KEYS.ARROW_UP options s).state.highlightedIndex
            = if s.highlightedIndex = 0
              then ((filteredOptions options input).length : Int) - 1
              else s.highlightedIndex - 1)) := by
  constructor
  · have h := arrows_preserve_invariant options input hn seq ⟨true, input, 0⟩
      rfl rfl (by exact le_refl 0)
      (by show (0 : Int) < ((filteredOptions options input).length : Int)
          exact_mod_cast hn)
    exact ⟨h.2.2.1, h.2.2.2, h.1, h.2.1⟩
  · intro s h1 h2 h3 h4
    constructor
    · rw [combobox3_arrowDown_state options s h1]
      subst h2
      dsimp only
      split <;> split <;> omega
    · rw [combobox3_arrowUp_state options s h1]
      subst h2
      dsimp only
      split <;> split <;> omega

/-- Witness for C9 at concrete inputs: two options, Down, Down (wrap), Up
(wrap back). -/
theorem c9_arrow_wraparound_witness :
    0 ≤ (runArrows [⟨"1", "Apple", "apple"⟩, ⟨"2", "Banana", "banana"⟩]
          ⟨true, "", 0⟩ [true, true, false]).highlightedIndex
    ∧ (runArrows [⟨"1", "Apple", "apple"⟩, ⟨"2", "Banana", "banana"⟩]
          ⟨true, "", 0⟩ [true, true, false]).highlightedIndex
        < ((filteredOptions [⟨"1", "Apple", "apple"⟩, ⟨"2", "Banana", "banana"⟩]
            "").length : Int) :=
  ⟨(c9_arrow_wraparound [⟨"1", "Apple", "apple"⟩, ⟨"2", "Banana", "banana"⟩] ""
      [true, true, false] (by decide)).1.1,
    (c9_arrow_wraparound [⟨"1", "Apple", "apple"⟩, ⟨"2", "Banana", "banana"⟩] ""
      [true, true, false] (by decide)).1.2.1⟩

theorem findIdx?_eq_some_of_first_occurrence :
    ∀ (l : List Elem) (i : Nat) (a : Elem), l[i]? = some a → a ∉ l.take i →
      l.findIdx? (fun el => el == a) = some i
  | [], i, a, h, _ => by simp at h
  | x :: xs, 0, a, h, _ => by
    have hx : x = a := by simpa using h
    subst hx
    simp
  | x :: xs, i + 1, a, h, hnot => by
    rw [List.getElem?_cons_succ] at h
    rw [List.take_succ_cons, List.mem_cons, not_or] at hnot
    have hne : (x == a) = false := by
      simp only [beq_eq_false_iff_ne, ne_eq]
      exact fun hx => hnot.1 hx.symm
    rw [List.findIdx?_cons, hne]
    simp only [Bool.false_eq_true, if_false]
    rw [List.findIdx?_succ,
      findIdx?_eq_some_of_first_occurrence xs i a h hnot.2]
    rfl

/-- The useFocusable hook fails exactly when the context is absent. -/
theorem useFocusable_isOk {α : Type} (ctx : Option α) :
    (useFocusable ctx).isOk = ctx.isSome := by
  cases ctx <;> rfl

/-- C3 counterexample: the exported `useFocusable` does propagate a failure to
its caller — outside a `FocusableProvider` (a `null` context) it throws. -/
theorem c3_counterexample_useFocusable_throws :
    useFocusable (α := Unit) none
      = Except.error "useFocusable must be used within a FocusableProvider" :=
  rfl

/-- C3 (amended): no operation signals an error beyond defensive null checks
on DOM lookups, except the `useFocusable` hook, which throws exactly when it
is used outside a `FocusableProvider`; every focus-lookup operation returns
null rather than raising when nothing is found — in particular, when the scope
holds no tabbable element, all four lookup functions return null. -/
theorem c3_error_handling (dom : Dom) (current : Elem) {α : Type}
    (ctx : Option α) :
    (useFocusable ctx).isOk = ctx.isSome
    ∧ ((formScopeElems dom current).all (fun e => !isTabbable e) = true →
        getNextTabbable dom current = none
        ∧ getPreviousTabbable dom current = none
        ∧ getNextFocusable dom current = none
        ∧ getPreviousFocusable dom current = none) := by
  refine ⟨useFocusable_isOk ctx, ?_⟩
  intro hall
  have hnone : ∀ e ∈ formScopeElems dom current, isTabbable e = false := by
    intro e he
    have := List.all_eq_true.mp hall e he
    simpa using this
  have htabs : getAllTabbables dom current = [] := by
    unfold getAllTabbables getTabbableElements querySelectorAllTabbable
    apply List.filter_eq_nil_iff.mpr
    intro a ha
    simp [hnone a (List.mem_filter.mp ha).1]
  have hfind : ∀ l : List Elem, (∀ x ∈ l, x ∈ formScopeElems dom current) →
      l.find? isTabbable = none := by
    intro l hl
    apply List.find?_eq_none.mpr
    intro x hx
    simp [hnone x (hl x hx)]
  have hlast : lastTabbable (formScopeElems dom current) = none := by
    unfold lastTabbable
    rw [List.getLast?_eq_none_iff]
    apply List.filter_eq_nil_iff.mpr
    intro a ha
    simp [hnone a ha]
  refine ⟨?_, ?_, ?_, ?_⟩
  · simp [getNextTabbable, htabs]
  · simp [getPreviousTabbable, htabs]
  · unfold getNextFocusable
    cases hidx : (formScopeElems dom current).findIdx? (fun el => el == current) with
    | none =>
      simp only [hidx]
      exact hfind _ (fun x hx => hx)
    | some i =>
      simp only [hidx]
      rw [hfind _ (fun x hx => List.mem_of_mem_drop hx)]
      exact hfind _ (fun x hx => hx)
  · unfold getPreviousFocusable
    cases hidx : (formScopeElems dom current).findIdx? (fun el => el == current) with
    | none =>
      simp only [hidx]
      exact hlast
    | some i =>
      simp only [hidx]
      rw [hfind _ (fun x hx => List.mem_of_mem_take (List.mem_reverse.mp hx))]
      exact hlast

/-- A plain `div` outside any form: matched by none of the selector parts. -/
def plainDiv : Elem :=
  ⟨1, "div", false, none, false, false, true, none⟩

/-- Witness for C3 at a concrete input: a body holding only a plain `div`. -/
theorem c3_error_handling_witness :
    (useFocusable (α := Unit) none).isOk = (none : Option Unit).isSome
    ∧ getNextTabbable ⟨[plainDiv]⟩ plainDiv = none
    ∧ getPreviousTabbable ⟨[plainDiv]⟩ plainDiv = none
    ∧ getNextFocusable ⟨[plainDiv]⟩ plainDiv = none
    ∧ getPreviousFocusable ⟨[plainDiv]⟩ plainDiv = none :=
  ⟨(c3_error_handling ⟨[plainDiv]⟩ plainDiv (α := Unit) none).1,
    (c3_error_handling ⟨[plainDiv]⟩ plainDiv (α := Unit) none).2 (by decide)⟩

/-- C5: Approach 2's hook is scoped to the closest enclosing form (else the
body): when the current element is not in the scope's document-order tabbable
list both lookups return null; when it first occurs at position `i`,
`getNextTabbable` returns the element at `i+1` (null at the end, no wrap) and
`getPreviousTabbable` the element at `i-1` (null at the start). -/
theorem c5_form_scoped_tabbable_navigation (dom : Dom) (current : Elem)
    (i : Nat) :
    (current ∉ getAllTabbables dom current →
      getNextTabbable dom current = none ∧ getPreviousTabbable dom current = none)
    ∧ ((getAllTabbables dom current)[i]? = some current →
        current ∉ (getAllTabbables dom current).take i →
        getNextTabbable dom current = (getAllTabbables dom current)[i + 1]?
        ∧ getPreviousTabbable dom current
            = if i = 0 then none else (getAllTabbables dom current)[i - 1]?) := by
  constructor
  · intro hmem
    have hidx : (getAllTabbables dom current).findIdx? (fun el => el == current)
        = none := by
      apply List.findIdx?_eq_none_iff.mpr
      intro x hx
      simp only [beq_eq_false_iff_ne, ne_eq]
      intro hxc
      exact hmem (hxc ▸ hx)
    exact ⟨by simp [getNextTabbable, hidx], by simp [getPreviousTabbable, hidx]⟩
  · intro hget htake
    have hidx := findIdx?_eq_some_of_first_occurrence
      (getAllTabbables dom current) i current hget htake
    exact ⟨by simp [getNextTabbable, hidx], by simp [getPreviousTabbable, hidx]⟩

/-- A text input inside form number 0, with identity `n`. -/
def formInput (n : Nat) : Elem :=
  ⟨n, "input", false, none, false, false, true, some 0⟩

/-- Witness for C5 at a concrete input: three inputs in one form, the current
element second. -/
theorem c5_form_scoped_tabbable_navigation_witness :
    getNextTabbable ⟨[formInput 1, formInput 2, formInput 3]⟩ (formInput 2)
        = (getAllTabbables ⟨[formInput 1, formInput 2, formInput 3]⟩
            (formInput 2))[1 + 1]?
    ∧ getPreviousTabbable ⟨[formInput 1, formInput 2, formInput 3]⟩ (formInput 2)
        = if 1 = 0 then none
          else (getAllTabbables ⟨[formInput 1, formInput 2, formInput 3]⟩
            (formInput 2))[1 - 1]? :=
  (c5_form_scoped_tabbable_navigation ⟨[formInput 1, formInput 2, formInput 3]⟩
    (formInput 2) 1).2 (by decide) (by decide)

/-- A props record with every optional prop absent. -/
def propsBare : ComboboxProps :=
  ⟨[], none, none, none, none, none, none⟩

/-- A props record differing from `propsBare` only in the controlled `value`
prop. -/
def propsWithValue : ComboboxProps :=
  ⟨[], some "Cherry", none, none, none, none, none⟩

/-- C8 counterexample: two prop records that agree on all six props named by
the claim (options, placeholder, selection-change callback, input-change
callback, class name, disabled) yet are different — the interface also carries
the controlled `value` prop the claim omits. -/
theorem c8_counterexample_value_prop :
    propsBare.options = propsWithValue.options
    ∧ propsBare.placeholder = propsWithValue.placeholder
    ∧ propsBare.onSelectionChange = propsWithValue.onSelectionChange
    ∧ propsBare.onInputChange = propsWithValue.onInputChange
    ∧ propsBare.className = propsWithValue.className
    ∧ propsBare.disabled = propsWithValue.disabled
    ∧ propsBare ≠ propsWithValue := by
  refine ⟨rfl, rfl, rfl, rfl, rfl, rfl, ?_⟩
  intro h
  have hv := congrArg ComboboxProps.value h
  simp [propsBare, propsWithValue] at hv

/-- C8 (amended): the component's external interface consists of exactly seven
props — options, the controlled value, placeholder, the selection-change
callback, the input-change callback, the class name, and the disabled flag;
a props record is fully determined by them and carries nothing else. -/
theorem c8_props_interface (p q : ComboboxProps) :
    (p = ⟨p.options, p.value, p.placeholder, p.onSelectionChange,
        p.onInputChange, p.className, p.disabled⟩)
    ∧ (p.options = q.options → p.value = q.value →
        p.placeholder = q.placeholder →
        p.onSelectionChange = q.onSelectionChange →
        p.onInputChange = q.onInputChange → p.className = q.className →
        p.disabled = q.disabled → p = q) := by
  constructor
  · rfl
  · intro h1 h2 h3 h4 h5 h6 h7
    cases p
    cases q
    simp only at h1 h2 h3 h4 h5 h6 h7
    subst h1 h2 h3 h4 h5 h6 h7
    rfl

/-- Witness for C8 at a concrete input: the bare props record determines
itself. -/
theorem c8_props_interface_witness : propsBare = propsBare :=
  (c8_props_interface propsBare propsBare).2 rfl rfl rfl rfl rfl rfl rfl

end TabbableCombobox
